import Mathlib

/-!
Verification of the tiered conversational-memory subsystem of the
memory-chatbot repository against its natural-language specification.

The Python sources are shallowly embedded as executable Lean definitions:

* `src/src/memory/short_term.py`   → `ShortTermMemory` (deque with maxlen)
* `src/src/memory/compressor.py`   → `SlidingWindowCompressor`,
  `LLMSummaryCompressor`, `HybridCompressor`, `TokenBasedCompressor`
* `src/src/memory/postgres_storage.py` + `src/src/memory/models.py`
  → `PGStorage` (per-conversation message log, summaries with the
  `uq_conversation_timerange` unique constraint, profile rows)
* `src/src/memory/mid_term.py`     → `MidTermMemory`
* `src/src/memory/mid_term_async.py` → `MidTermMemoryAsync`
* `src/src/memory/mid_term_with_redis.py` → `MidTermMemoryWithRedis`
* `src/src/memory/lua_scripts.py` (ADD_MESSAGE_SCRIPT) → `addMessageScript`

Fallible Python code (exceptions such as an IntegrityError raised on a
violated unique constraint) is embedded as `Except`-valued functions; the
Lua `while` loop is embedded fuel-indexed, `none` meaning the loop has not
terminated within the given fuel.

Python list slicing with a negative start (`l[-k:]`, `l[:-k]`) is embedded
by `takeLastPy` / `dropLastPy`, which reproduce the `k = 0` edge case
(`l[-0:] = l`, `l[:-0] = []`).
-/

/-- A chat message as the Python dicts `{"role": ..., "content": ...}`
carry it through the short-term buffer and the compressors. -/
structure Msg where
  role : String
  content : String
deriving Repr, DecidableEq

/-- Python `l[-k:]`: the last `k` elements, except that `l[-0:]` is all of `l`. -/
def takeLastPy (k : Nat) (l : List Msg) : List Msg :=
  if k = 0 then l else l.drop (l.length - k)

/-- Python `l[:-k]`: everything but the last `k` elements, except that
`l[:-0]` is `[]`. -/
def dropLastPy (k : Nat) (l : List Msg) : List Msg :=
  if k = 0 then [] else l.take (l.length - k)

/-- The last `min n l.length` elements of `l` (plain suffix, used to state
retention invariants). -/
def takeLast (n : Nat) (l : List Msg) : List Msg :=
  l.drop (l.length - n)

/-! ## Short-term buffer (`src/src/memory/short_term.py`)

`ShortTermMemory.__init__` sets `max_messages = max_turns * 2` and
`self.messages = deque(maxlen=self.max_messages)`.  A `deque` with a
`maxlen` silently discards its leftmost element when an `append` would
exceed the bound, which for states reachable from the empty buffer is
exactly keeping the last `max_messages` elements of the appended
sequence. -/

structure ShortTermMemory where
  max_turns : Nat
  messages : List Msg
deriving Repr, DecidableEq

/-- `max_messages = max_turns * 2` from `__init__`. -/
def ShortTermMemory.max_messages (st : ShortTermMemory) : Nat :=
  st.max_turns * 2

/-- `ShortTermMemory(max_turns=k)`: empty deque. -/
def ShortTermMemory.init (k : Nat) : ShortTermMemory :=
  { max_turns := k, messages := [] }

/-- `add_message(role, content)`: `self.messages.append({...})` on the
bounded deque.  The Python method returns `None`; nothing else of the
state records the discarded element. -/
def ShortTermMemory.add_message (st : ShortTermMemory) (role content : String) :
    ShortTermMemory :=
  { st with messages := takeLast st.max_messages (st.messages ++ [⟨role, content⟩]) }

/-- `get_messages()`: `list(self.messages)`. -/
def ShortTermMemory.get_messages (st : ShortTermMemory) : List Msg :=
  st.messages

/-- `clear()`: `self.messages.clear()`. -/
def ShortTermMemory.clear (st : ShortTermMemory) : ShortTermMemory :=
  { st with messages := [] }

/-- `get_turn_count()`: `len(self.messages) // 2`. -/
def ShortTermMemory.get_turn_count (st : ShortTermMemory) : Nat :=
  st.messages.length / 2

/-- `is_full()`: `len(self.messages) >= self.max_messages`. -/
def ShortTermMemory.is_full (st : ShortTermMemory) : Bool :=
  st.messages.length ≥ st.max_messages

/-- A sequence of `add_message` calls, one per listed message. -/
def ShortTermMemory.addAll (st : ShortTermMemory) (ms : List Msg) : ShortTermMemory :=
  ms.foldl (fun a m => a.add_message m.role m.content) st

/-! ## Compression strategies (`src/src/memory/compressor.py`) -/

/-- `SlidingWindowCompressor(keep_turns).compress`: keep the last
`keep_turns * 2` messages, returning short inputs unchanged
(`compressor.py` lines 117–132). -/
def SlidingWindowCompressor.compress (keep_turns : Nat) (messages : List Msg) :
    List Msg :=
  let keep_messages := keep_turns * 2
  if messages.length ≤ keep_messages then messages
  else takeLastPy keep_messages messages

/-- `LLMSummaryCompressor._format_messages`: one `"<role>: <content>"` line
per message, roles rendered as 用户/助手. -/
def LLMSummaryCompressor.format_messages (messages : List Msg) : String :=
  String.intercalate "\n"
    (messages.map fun m =>
      (if m.role = "user" then "用户" else "助手") ++ ": " ++ m.content)

/-- The summarisation prompt built by `LLMSummaryCompressor._summarize`. -/
def LLMSummaryCompressor.summaryPrompt (messages : List Msg) : String :=
  "请总结以下对话的关键信息，要求：\n\n" ++
  "1. 提取用户的基本信息（姓名、地点、职业等）\n" ++
  "2. 记录用户的偏好和兴趣\n" ++
  "3. 列出讨论的主要话题\n" ++
  "4. 保留重要的决定或结论\n" ++
  "5. 保留具体的数字、名称等关键细节\n" ++
  "6. 按时间顺序组织\n" ++
  "7. 简洁准确，不超过300字\n\n" ++
  "对话内容：\n" ++ LLMSummaryCompressor.format_messages messages ++ "\n\n" ++
  "请用简洁的语言总结上述对话的关键信息："

/-- `LLMSummaryCompressor._summarize`: call the LLM (`chat`, which may
fail) on the prompt; on failure return the deterministic placeholder. -/
def LLMSummaryCompressor.summarize (chat : List Msg → Except String String)
    (messages : List Msg) : String :=
  match chat [⟨"user", LLMSummaryCompressor.summaryPrompt messages⟩] with
  | .ok summary => summary.trim
  | .error e =>
      let n := messages.length
      s!"[摘要生成失败: {e}]\n历史对话包含 {n} 条消息"

/-- `LLMSummaryCompressor(llm, keep_recent_turns).compress`
(`compressor.py` lines 175–205). -/
def LLMSummaryCompressor.compress (chat : List Msg → Except String String)
    (keep_recent_turns : Nat) (messages : List Msg) : List Msg :=
  let keep_recent_messages := keep_recent_turns * 2
  if messages.length ≤ keep_recent_messages then messages
  else
    let recent_messages := takeLastPy keep_recent_messages messages
    let history_messages := dropLastPy keep_recent_messages messages
    if history_messages = [] then recent_messages
    else
      let summary := LLMSummaryCompressor.summarize chat history_messages
      ⟨"system", "📝 对话历史摘要：\n" ++ summary⟩ :: recent_messages

/-- `HybridCompressor(llm, threshold_turns, keep_recent_turns).compress`:
delegate to the sliding window at or below `threshold_turns * 2` messages,
otherwise to the LLM summary compressor; both sub-compressors are built
with `keep_turns = keep_recent_turns` (`compressor.py` lines 290–331). -/
def HybridCompressor.compress (chat : List Msg → Except String String)
    (threshold_turns keep_recent_turns : Nat) (messages : List Msg) : List Msg :=
  let threshold_messages := threshold_turns * 2
  if messages.length ≤ threshold_messages then
    SlidingWindowCompressor.compress keep_recent_turns messages
  else
    LLMSummaryCompressor.compress chat keep_recent_turns messages

/-- The `while compressed and current_tokens > self.max_tokens` loop of
`TokenBasedCompressor.compress`: pop the oldest message and subtract its
token count from the running total. -/
def TokenBasedCompressor.dropOldest (token_counter : String → Nat)
    (max_tokens : Nat) : List Msg → Nat → List Msg
  | [], _ => []
  | m :: rest, current_tokens =>
      if current_tokens > max_tokens then
        TokenBasedCompressor.dropOldest token_counter max_tokens rest
          (current_tokens - token_counter m.content)
      else m :: rest

/-- `TokenBasedCompressor(token_counter, max_tokens).compress`
(`compressor.py` lines 387–422): return inputs within budget unchanged,
otherwise remove whole messages from the oldest end until the running
total is within budget or the list is empty. -/
def TokenBasedCompressor.compress (token_counter : String → Nat)
    (max_tokens : Nat) (messages : List Msg) : List Msg :=
  if messages = [] then messages
  else
    let total_tokens := (messages.map fun m => token_counter m.content).sum
    if total_tokens ≤ max_tokens then messages
    else TokenBasedCompressor.dropOldest token_counter max_tokens messages total_tokens

/-! ## Persistent store (`src/src/memory/postgres_storage.py`,
schema in `src/src/memory/models.py`)

Conversations are keyed by the unique pair `(user_id, session_id)`
(`uq_user_session`), so the model keys its per-conversation data directly
by that pair instead of a surrogate `id`.  Rows of a conversation are kept
in insertion order, which is the order of the monotone `created_at` /
autoincrement `id` columns; `query_messages` orders by `created_at`
descending.  Messages flowing through the modelled paths always carry
`tokens=None` (the overflow dicts hold only role and content), so stored
messages are modelled as `Msg`. -/

/-- A row of the `summaries` table (per-conversation part). -/
structure SummaryRow where
  time_range : String
  summary_text : String
deriving Repr, DecidableEq

/-- The rows owned by one conversation, each list in creation order. -/
structure ConvData where
  messages : List Msg
  summaries : List SummaryRow
  profile : List (String × String)
deriving Repr, DecidableEq

def ConvData.empty : ConvData := ⟨[], [], []⟩

/-- `(user_id, session_id)`, the unique conversation identity. -/
abbrev ConvKey := String × String

/-- The durable store: one `ConvData` per existing conversation. -/
abbrev PGStorage := List (ConvKey × ConvData)

def PGStorage.find (st : PGStorage) (k : ConvKey) : Option ConvData :=
  (st.find? fun p => p.1 = k).map (·.2)

def PGStorage.updateConv (st : PGStorage) (k : ConvKey) (f : ConvData → ConvData) :
    PGStorage :=
  st.map fun p => if p.1 = k then (p.1, f p.2) else p

/-- `get_or_create_conversation(user_id, session_id)`: fetch the row for
the pair, creating an empty conversation when none exists.  Returns the
conversation's key together with the (possibly extended) store. -/
def PGStorage.get_or_create_conversation (st : PGStorage) (k : ConvKey) :
    ConvKey × PGStorage :=
  match st.find k with
  | some _ => (k, st)
  | none => (k, st ++ [(k, ConvData.empty)])

/-- `add_messages(conversation_id, messages_list)`: batch append in input
order. -/
def PGStorage.add_messages (st : PGStorage) (k : ConvKey) (batch : List Msg) :
    PGStorage :=
  st.updateConv k fun c => { c with messages := c.messages ++ batch }

/-- `query_messages(conversation_id, limit)`: ordered by `created_at`
descending (most recent first), optionally limited; offset is `0` at every
modelled call site. -/
def PGStorage.query_messages (st : PGStorage) (k : ConvKey) (limit : Option Nat) :
    List Msg :=
  let desc := ((st.find k).getD ConvData.empty).messages.reverse
  match limit with
  | none => desc
  | some l => desc.take l

/-- `save_summary(conversation_id, time_range, summary_text)`: a plain
insert; the `uq_conversation_timerange` unique constraint of `models.py`
makes the commit raise an IntegrityError when the conversation already has
a summary with that `time_range`, leaving the store unchanged. -/
def PGStorage.save_summary (st : PGStorage) (k : ConvKey)
    (time_range summary_text : String) : Except Unit PGStorage :=
  if (((st.find k).getD ConvData.empty).summaries.any
        fun s => s.time_range = time_range) then
    .error ()
  else
    .ok (st.updateConv k fun c =>
      { c with summaries := c.summaries ++ [⟨time_range, summary_text⟩] })

/-- One key of `upsert_profile`: insert-or-update on the
`uq_conversation_profile` constraint. -/
def ConvData.upsertKey (c : ConvData) (key value : String) : ConvData :=
  if c.profile.any fun p => p.1 = key then
    { c with profile := c.profile.map fun p => if p.1 = key then (key, value) else p }
  else
    { c with profile := c.profile ++ [(key, value)] }

/-- `upsert_profile(conversation_id, profile_data)`: per-key upsert. -/
def PGStorage.upsert_profile (st : PGStorage) (k : ConvKey)
    (profile_data : List (String × String)) : PGStorage :=
  st.updateConv k fun c => profile_data.foldl (fun a p => a.upsertKey p.1 p.2) c

/-- `get_summaries(conversation_id)`: rows ordered by `created_at`
ascending. -/
def PGStorage.get_summaries (st : PGStorage) (k : ConvKey) : List SummaryRow :=
  ((st.find k).getD ConvData.empty).summaries

/-- `get_profile(conversation_id)`. -/
def PGStorage.get_profile (st : PGStorage) (k : ConvKey) : List (String × String) :=
  ((st.find k).getD ConvData.empty).profile

/-! ## Spec-modelled short-term buffer with overflow reporting

All three mid-term managers call `self.short_term.check_overflow()`
(`mid_term.py` line 66, `mid_term_async.py` line 67,
`mid_term_with_redis.py` line 58), but `ShortTermMemory` in
`src/src/memory/short_term.py` defines no such method, and its bounded
deque has already discarded any evicted entry by the time the call would
run.  The buffer the managers are written against is therefore modelled
from the spec. -/

/-- Modelled from the spec: the short-term buffer the mid-term managers
call into, with the missing `check_overflow` operation.  Per §4.1, `add`
appends a turn, and when the sequence exceeds `2*maxTurns` entries the
oldest entries are evicted and returned as an ordered overflow batch
(oldest first), exactly the `added - 2*maxTurns` entries needed to return
to capacity. -/
structure ShortTermMemorySpec where
  max_turns : Nat
  messages : List Msg
deriving Repr, DecidableEq

/-- Modelled from the spec: append one turn entry (no eviction happens at
append time; `check_overflow` performs and reports it). -/
def ShortTermMemorySpec.add_message (st : ShortTermMemorySpec)
    (role content : String) : ShortTermMemorySpec :=
  { st with messages := st.messages ++ [⟨role, content⟩] }

/-- Modelled from the spec: evict everything beyond `2*maxTurns`, oldest
first, and return the evicted batch together with the trimmed buffer. -/
def ShortTermMemorySpec.check_overflow (st : ShortTermMemorySpec) :
    List Msg × ShortTermMemorySpec :=
  let cap := st.max_turns * 2
  if st.messages.length > cap then
    let excess := st.messages.length - cap
    (st.messages.take excess, { st with messages := st.messages.drop excess })
  else
    ([], st)

/-- `clear()` on the modelled buffer (`short_term.py` lines 62–64). -/
def ShortTermMemorySpec.clear (st : ShortTermMemorySpec) : ShortTermMemorySpec :=
  { st with messages := [] }

/-! ## Synchronous mid-term manager (`src/src/memory/mid_term.py`) -/

/-- The compaction label `"msg_{total_count-49}_to_{total_count}"`
(`mid_term.py` lines 109–112); the subtraction is Python int
subtraction. -/
def timeRangeLabel (total_count : Nat) : String :=
  let start : Int := (total_count : Int) - 49
  s!"msg_{start}_to_{total_count}"

/-- `MidTermMemory._generate_summary`: placeholder summary counting the
user and assistant messages of the batch. -/
def MidTermMemory.generate_summary (messages : List Msg) : String :=
  let n := messages.length
  let user_count := (messages.filter fun m => m.role = "user").length
  let assistant_count := (messages.filter fun m => m.role = "assistant").length
  s!"对话包含{n}条消息，用户发送了{user_count}条，助手回复了{assistant_count}条。"

/-- `MidTermMemory._extract_user_profile`: placeholder returning the empty
map. -/
def MidTermMemory.extract_user_profile (_messages : List Msg) :
    List (String × String) :=
  []

/-- `MidTermMemory._compress_recent_messages` (`mid_term.py` lines
92–131): generate the summary, save it under the `timeRangeLabel`, then
upsert any non-empty profile updates.  The body has no try/except, so a
failing storage write propagates through the `Except`. -/
def MidTermMemory.compress_recent_messages (storage : PGStorage) (k : ConvKey)
    (recent_messages : List Msg) (total_count : Nat) : Except Unit PGStorage :=
  let summary_text := MidTermMemory.generate_summary recent_messages
  let time_range := timeRangeLabel total_count
  match storage.save_summary k time_range summary_text with
  | .error e => .error e
  | .ok storage1 =>
      let profile_updates := MidTermMemory.extract_user_profile recent_messages
      if profile_updates = [] then .ok storage1
      else .ok (storage1.upsert_profile k profile_updates)

/-- State of a `MidTermMemory` manager: the store handle plus the
(spec-modelled) short-term buffer. -/
structure MidTermMemory where
  storage : PGStorage
  short_term : ShortTermMemorySpec
deriving Repr, DecidableEq

/-- `MidTermMemory.add_message` (`mid_term.py` lines 38–90): add to the
short-term buffer, flush any overflow batch to the store, and when the
persisted count is a positive multiple of 50, run compaction synchronously
over `all_messages[-50:]` (the last 50 entries of the descending query
result).  Errors from compaction propagate to the caller. -/
def MidTermMemory.add_message (st : MidTermMemory)
    (user_id session_id role content : String) (_tokens : Option Nat) :
    Except Unit MidTermMemory :=
  let st1 := st.short_term.add_message role content
  let overflow := st1.check_overflow.1
  let st2 := st1.check_overflow.2
  if overflow = [] then
    .ok { st with short_term := st2 }
  else
    let gc := st.storage.get_or_create_conversation (user_id, session_id)
    let k := gc.1
    let s2 := gc.2.add_messages k overflow
    let all_messages := s2.query_messages k none
    let total_count := all_messages.length
    if 0 < total_count ∧ total_count % 50 = 0 then
      match MidTermMemory.compress_recent_messages s2 k
        (takeLastPy 50 all_messages) total_count with
      | .error e => .error e
      | .ok s3 => .ok { storage := s3, short_term := st2 }
    else
      .ok { storage := s2, short_term := st2 }

/-- `MidTermMemory.clear_session` (`mid_term.py` lines 343–358): clears
only the short-term buffer; the store is untouched. -/
def MidTermMemory.clear_session (st : MidTermMemory)
    (_user_id _session_id : String) : MidTermMemory :=
  { st with short_term := st.short_term.clear }

/-! ## Asynchronous mid-term manager (`src/src/memory/mid_term_async.py`) -/

/-- State of a `MidTermMemoryAsync` manager.  `session_maker` records
whether a session factory for background work was supplied. -/
structure MidTermMemoryAsync where
  storage : PGStorage
  short_term : ShortTermMemorySpec
  session_maker : Bool
deriving Repr, DecidableEq

/-- `MidTermMemoryAsync._compress_in_background` (`mid_term_async.py`
lines 100–162): with no session factory the task returns without writing;
otherwise it queries the 50 most recent messages, saves the summary and
upserts profile updates, with the whole body wrapped in try/except so a
failing write leaves the store unchanged and no error escapes. -/
def MidTermMemoryAsync.compress_in_background (storage : PGStorage)
    (session_maker : Bool) (k : ConvKey) (total_count : Nat) : PGStorage :=
  if !session_maker then storage
  else
    let recent_messages := storage.query_messages k (some 50)
    let summary_text := MidTermMemory.generate_summary recent_messages
    let time_range := timeRangeLabel total_count
    match storage.save_summary k time_range summary_text with
    | .error _ => storage
    | .ok storage1 =>
        let profile_updates := MidTermMemory.extract_user_profile recent_messages
        if profile_updates = [] then storage1
        else storage1.upsert_profile k profile_updates

/-- `MidTermMemoryAsync.add_message` (`mid_term_async.py` lines 47–98):
same flush and trigger logic as the synchronous manager, but compaction
runs as a background task whose outcome (modelled as the eventual store
produced by `compress_in_background`) never surfaces an error; the
function is total. -/
def MidTermMemoryAsync.add_message (st : MidTermMemoryAsync)
    (user_id session_id role content : String) (_tokens : Option Nat) :
    MidTermMemoryAsync :=
  let st1 := st.short_term.add_message role content
  let overflow := st1.check_overflow.1
  let st2 := st1.check_overflow.2
  if overflow = [] then
    { st with short_term := st2 }
  else
    let gc := st.storage.get_or_create_conversation (user_id, session_id)
    let k := gc.1
    let s2 := gc.2.add_messages k overflow
    let total_count := (s2.query_messages k none).length
    if 0 < total_count ∧ total_count % 50 = 0 then
      { storage := MidTermMemoryAsync.compress_in_background s2 st.session_maker
          k total_count,
        short_term := st2, session_maker := st.session_maker }
    else
      { storage := s2, short_term := st2, session_maker := st.session_maker }

/-! ## Redis-cached mid-term manager
(`src/src/memory/mid_term_with_redis.py`)

The manager calls `self.redis.cache_messages(...)` and
`self.redis.get_cached_messages(...)` (`mid_term_with_redis.py` lines 81,
106, 136) and `tests/test_redis_storage.py` exercises the same pair, but
`RedisStorage` in `src/src/memory/redis_storage.py` defines neither
method.  The message-cache layer is therefore modelled from the spec
(§4.5): a per-`(user, session)` snapshot cache with TTL, never the source
of truth. -/

/-- Modelled from the spec: the message cache of the CacheLayer, one
serialized snapshot per `(user, session)` key.  TTL expiry is represented
by the entry being absent (`evict`); wall-clock time is not modelled. -/
structure RedisCacheState where
  messageCache : List (ConvKey × List Msg)
deriving Repr, DecidableEq

/-- Modelled from the spec: `RedisStorage.cache_messages(user_id,
session_id, messages, ttl)` — store the snapshot for the key, replacing
any previous entry, with a fresh TTL. -/
def RedisCacheState.cache_messages (c : RedisCacheState) (k : ConvKey)
    (messages : List Msg) (_ttl : Nat) : RedisCacheState :=
  if c.messageCache.any fun p => p.1 = k then
    ⟨c.messageCache.map fun p => if p.1 = k then (k, messages) else p⟩
  else
    ⟨c.messageCache ++ [(k, messages)]⟩

/-- Modelled from the spec: `RedisStorage.get_cached_messages(user_id,
session_id)` — the cached snapshot, or `none` on a miss. -/
def RedisCacheState.get_cached_messages (c : RedisCacheState) (k : ConvKey) :
    Option (List Msg) :=
  (c.messageCache.find? fun p => p.1 = k).map (·.2)

/-- A cache entry disappearing (TTL expiry or eviction); per §4.5 / §3,
cache entries may be evicted or expire at any time. -/
def RedisCacheState.evict (c : RedisCacheState) (k : ConvKey) : RedisCacheState :=
  ⟨c.messageCache.filter fun p => ¬(p.1 = k)⟩

/-- State of a `MidTermMemoryWithRedis` manager. -/
structure MidTermMemoryWithRedis where
  pg_storage : PGStorage
  redis : RedisCacheState
  short_term : ShortTermMemorySpec
  cache_ttl : Nat
  cache_hits : Nat
  cache_misses : Nat
deriving Repr, DecidableEq

/-- `MidTermMemoryWithRedis.add_message` (`mid_term_with_redis.py` lines
44–88): add to the short-term buffer, flush any overflow batch to
PostgreSQL, then re-read the full message list and refresh the Redis cache
entry with it before returning. -/
def MidTermMemoryWithRedis.add_message (st : MidTermMemoryWithRedis)
    (user_id session_id role content : String) (_tokens : Option Nat) :
    MidTermMemoryWithRedis :=
  let st1 := st.short_term.add_message role content
  let overflow := st1.check_overflow.1
  let st2 := st1.check_overflow.2
  if overflow = [] then
    { st with short_term := st2 }
  else
    let gc := st.pg_storage.get_or_create_conversation (user_id, session_id)
    let k := gc.1
    let s2 := gc.2.add_messages k overflow
    let all_messages := s2.query_messages k none
    let redis1 := st.redis.cache_messages (user_id, session_id) all_messages
      st.cache_ttl
    { st with pg_storage := s2, redis := redis1, short_term := st2 }

/-- `MidTermMemoryWithRedis.query_messages` (`mid_term_with_redis.py`
lines 90–143): return the cached snapshot on a hit (sliced by
`cached[-limit:]` when `limit` is truthy); on a miss read PostgreSQL,
populate the cache when the result is non-empty, and return it. -/
def MidTermMemoryWithRedis.query_messages (st : MidTermMemoryWithRedis)
    (user_id session_id : String) (limit : Option Nat) :
    List Msg × MidTermMemoryWithRedis :=
  match st.redis.get_cached_messages (user_id, session_id) with
  | some cached =>
      let result := match limit with
        | some l => if l ≠ 0 then takeLastPy l cached else cached
        | none => cached
      (result, { st with cache_hits := st.cache_hits + 1 })
  | none =>
      let gc := st.pg_storage.get_or_create_conversation (user_id, session_id)
      let pg_messages := gc.2.query_messages gc.1 limit
      let redis1 :=
        if pg_messages ≠ [] then
          st.redis.cache_messages (user_id, session_id) pg_messages st.cache_ttl
        else st.redis
      (pg_messages,
       { st with pg_storage := gc.2, redis := redis1,
                 cache_misses := st.cache_misses + 1 })

/-! ## The Redis `ADD_MESSAGE_SCRIPT`
(`src/src/memory/lua_scripts.py` lines 8–35, invoked by
`RedisStorage.add_message`, `redis_storage.py` lines 57–101)

The sorted set is a list of `(member, score)` pairs kept in ascending
score order; scores are the float timestamps, modelled as rationals.  The
script's `while redis.call('ZSCORE', messages_key, message) do timestamp =
timestamp + 0.001 end` loop is fuel-indexed: `none` means the loop is
still running after the given number of iterations.  Lua treats any
returned score string as truthy, so the condition holds exactly when the
serialized message is a member of the set. -/

/-- `ZSCORE key member` is truthy iff the member exists in the set. -/
def zsetHasMember (z : List (String × Rat)) (member : String) : Bool :=
  z.any fun p => p.1 = member

/-- `ZADD key score member`: insert, or update the score of an existing
member. -/
def zsetAdd (z : List (String × Rat)) (member : String) (score : Rat) :
    List (String × Rat) :=
  if zsetHasMember z member then
    z.map fun p => if p.1 = member then (member, score) else p
  else
    (z ++ [(member, score)]).mergeSort fun a b => a.2 ≤ b.2

/-- The script's collision loop, fuel-indexed: each iteration re-reads
`ZSCORE(messages_key, message)` — which does not depend on `timestamp` —
and bumps the timestamp by `0.001`. -/
def collisionLoop (z : List (String × Rat)) (message : String) :
    Nat → Rat → Option Rat
  | 0, _ => none
  | fuel + 1, timestamp =>
      if zsetHasMember z message then
        collisionLoop z message fuel (timestamp + 1 / 1000)
      else
        some timestamp

/-- `ADD_MESSAGE_SCRIPT`: run the collision loop, `ZADD` the message,
`ZREMRANGEBYRANK` away the lowest-ranked entries beyond `max_count`, and
refresh the TTL; returns the updated set, the `ZCARD` value the script
returns (taken before the trim), and the TTL the key was set to.  `none`
when the collision loop has not terminated within the fuel. -/
def addMessageScript (fuel : Nat) (z : List (String × Rat)) (message : String)
    (timestamp : Rat) (max_count : Nat) (ttl : Nat) :
    Option (List (String × Rat) × Nat × Nat) :=
  match collisionLoop z message fuel timestamp with
  | none => none
  | some ts =>
      let z1 := zsetAdd z message ts
      let count := z1.length
      let z2 := if count > max_count then z1.drop (count - max_count) else z1
      some (z2, count, ttl)

/-! ## Helper definitions for stating manager-level properties -/

/-- The store as `MidTermMemory.add_message` leaves it right after the
flush step (get-or-create, then batch append of the overflow), before any
compaction; used to phrase compaction-trigger hypotheses. -/
def MidTermMemory.flushed (st : MidTermMemory)
    (user_id session_id role content : String) : PGStorage :=
  let overflow := ((st.short_term.add_message role content).check_overflow).1
  let gc := st.storage.get_or_create_conversation (user_id, session_id)
  gc.2.add_messages gc.1 overflow

/-- The flushed store of `MidTermMemoryAsync.add_message`, analogous. -/
def MidTermMemoryAsync.flushed (st : MidTermMemoryAsync)
    (user_id session_id role content : String) : PGStorage :=
  let overflow := ((st.short_term.add_message role content).check_overflow).1
  let gc := st.storage.get_or_create_conversation (user_id, session_id)
  gc.2.add_messages gc.1 overflow

/-- The flushed store of `MidTermMemoryWithRedis.add_message`, analogous. -/
def MidTermMemoryWithRedis.flushed (st : MidTermMemoryWithRedis)
    (user_id session_id role content : String) : PGStorage :=
  let overflow := ((st.short_term.add_message role content).check_overflow).1
  let gc := st.pg_storage.get_or_create_conversation (user_id, session_id)
  gc.2.add_messages gc.1 overflow

/-- A concrete Redis-manager state (empty store, empty cache,
zero-capacity buffer, default TTL) used to evaluate read-after-write at a
specific input. -/
def redisWitnessState : MidTermMemoryWithRedis :=
  ⟨[], ⟨[]⟩, ⟨0, []⟩, 3600, 0, 0⟩

/-! ## General lemmas about the embedded operations -/

theorem takeLast_length (n : Nat) (l : List Msg) :
    (takeLast n l).length = min n l.length := by
  simp [takeLast, List.length_drop]
  omega

theorem takeLast_takeLast_append (n : Nat) (a b : List Msg) :
    takeLast n (takeLast n a ++ b) = takeLast n (a ++ b) := by
  unfold takeLast
  rw [← List.drop_append_of_le_length (Nat.sub_le a.length n), List.drop_drop]
  congr 1
  simp only [List.length_drop, List.length_append]
  omega

theorem ShortTermMemory.addAll_messages (k : Nat) (l ms : List Msg)
    (h : l.length ≤ k * 2) :
    (ShortTermMemory.addAll ⟨k, l⟩ ms).messages = takeLast (k * 2) (l ++ ms) := by
  induction ms generalizing l with
  | nil =>
      simp [ShortTermMemory.addAll, takeLast, Nat.sub_eq_zero_of_le h]
  | cons m rest ih =>
      have hstep : ShortTermMemory.addAll ⟨k, l⟩ (m :: rest) =
          ShortTermMemory.addAll ⟨k, takeLast (k * 2) (l ++ [m])⟩ rest := by
        simp [ShortTermMemory.addAll, ShortTermMemory.add_message,
          ShortTermMemory.max_messages]
      have hlen : (takeLast (k * 2) (l ++ [m])).length ≤ k * 2 := by
        rw [takeLast_length]; omega
      rw [hstep, ih _ hlen, takeLast_takeLast_append]
      simp


/-! ## Claims about the short-term buffer and the compressors -/

/-- Claim C7: for every sequence of `N` calls to `add_message` on a
`ShortTermMemory` constructed with `max_turns = k`, after every call
(i.e. after every prefix of the appended sequence) the buffer holds at
most `2k` messages, and the held messages are exactly the most recent
`min(N, 2k)` appended messages in their original append order.  The
suffix `takeLast (k * 2)` of the appended prefix is precisely that
sequence. -/
theorem C7_short_term_retention_invariant (k : Nat) (ms : List Msg) (i : Nat) :
    ((ShortTermMemory.init k).addAll (ms.take i)).messages.length ≤ k * 2 ∧
    ((ShortTermMemory.init k).addAll (ms.take i)).messages =
      takeLast (k * 2) (ms.take i) := by
  have h : ((ShortTermMemory.init k).addAll (ms.take i)).messages =
      takeLast (k * 2) (ms.take i) := by
    have := ShortTermMemory.addAll_messages k [] (ms.take i) (by simp)
    simpa [ShortTermMemory.init] using this
  refine ⟨?_, h⟩
  rw [h, takeLast_length]
  omega

/-- Claim C9: `SlidingWindowCompressor.compress` is idempotent. -/
theorem C9_sliding_window_idempotent (keep_turns : Nat) (m : List Msg) :
    SlidingWindowCompressor.compress keep_turns
      (SlidingWindowCompressor.compress keep_turns m) =
    SlidingWindowCompressor.compress keep_turns m := by
  unfold SlidingWindowCompressor.compress takeLastPy
  by_cases h : m.length ≤ keep_turns * 2
  · simp [h]
  · by_cases hk : keep_turns * 2 = 0
    · simp [hk] at h ⊢
    · have hlen : (m.drop (m.length - keep_turns * 2)).length = keep_turns * 2 := by
        simp [List.length_drop]; omega
      simp [h, hk, hlen]

/-- Claim C8: for inputs of length at most `2 * threshold_turns`,
`HybridCompressor.compress` coincides with
`SlidingWindowCompressor.compress` at the configured keep count. -/
theorem C8_hybrid_delegates_below_threshold
    (chat : List Msg → Except String String)
    (threshold_turns keep_recent_turns : Nat) (messages : List Msg)
    (h : messages.length ≤ 2 * threshold_turns) :
    HybridCompressor.compress chat threshold_turns keep_recent_turns messages =
    SlidingWindowCompressor.compress keep_recent_turns messages := by
  have h' : messages.length ≤ threshold_turns * 2 := by omega
  simp [HybridCompressor.compress, h']

/-- Witness for C8 at a concrete input: two messages, threshold one turn,
an unavailable LLM. -/
theorem C8_hybrid_delegates_below_threshold_witness :
    ([Msg.mk "user" "a", Msg.mk "assistant" "b"] : List Msg).length ≤ 2 * 1 ∧
    HybridCompressor.compress (fun _ => .error "llm down") 1 1
        [Msg.mk "user" "a", Msg.mk "assistant" "b"] =
      SlidingWindowCompressor.compress 1 [Msg.mk "user" "a", Msg.mk "assistant" "b"] :=
  ⟨by decide,
   C8_hybrid_delegates_below_threshold (fun _ => .error "llm down") 1 1 _ (by decide)⟩

/-- Claim C5 counterexample: with `max_tokens = 0`, a non-empty input and
the token counter `String.length`, `TokenBasedCompressor.compress` returns
a non-empty sequence — the trailing message has zero tokens, the running
total reaches `0` and the loop stops before emptying the list. -/
theorem C5_counterexample_budget_zero_nonempty :
    TokenBasedCompressor.compress String.length 0
        [Msg.mk "user" "hi", Msg.mk "assistant" ""] =
      [Msg.mk "assistant" ""] ∧
    ([Msg.mk "assistant" ""] : List Msg) ≠ [] := by
  exact ⟨rfl, by decide⟩

theorem TokenBasedCompressor.dropOldest_all_pos (token_counter : String → Nat)
    (l : List Msg) (h : ∀ m ∈ l, 0 < token_counter m.content) :
    TokenBasedCompressor.dropOldest token_counter 0 l
      ((l.map fun m => token_counter m.content).sum) = [] := by
  induction l with
  | nil => rfl
  | cons m rest ih =>
      have hm : 0 < token_counter m.content := h m (List.mem_cons_self m rest)
      rw [List.map_cons, List.sum_cons]
      unfold TokenBasedCompressor.dropOldest
      rw [if_pos (by omega), Nat.add_sub_cancel_left]
      exact ih fun x hx => h x (List.mem_cons_of_mem m hx)

/-- Claim C5, amended: for every non-empty input each of whose messages
the token counter assigns a positive count, `compress` with
`max_tokens = 0` returns the empty sequence.  (As stated over all token
counters the claim fails: a message counted at zero tokens can survive a
zero budget — see the counterexample.) -/
theorem C5_amended_budget_zero_empty (token_counter : String → Nat)
    (messages : List Msg) (hne : messages ≠ [])
    (hpos : ∀ m ∈ messages, 0 < token_counter m.content) :
    TokenBasedCompressor.compress token_counter 0 messages = [] := by
  obtain ⟨m, rest, rfl⟩ : ∃ m rest, messages = m :: rest := by
    cases messages with
    | nil => exact absurd rfl hne
    | cons a b => exact ⟨a, b, rfl⟩
  have hm : 0 < token_counter m.content := hpos m (List.mem_cons_self m rest)
  unfold TokenBasedCompressor.compress
  rw [if_neg hne]
  rw [if_neg (by simp; omega)]
  exact TokenBasedCompressor.dropOldest_all_pos token_counter (m :: rest) hpos

/-- Witness for the amended C5: one message of two characters, counter
`String.length`, budget `0` — the result is empty. -/
theorem C5_amended_budget_zero_empty_witness :
    ([Msg.mk "user" "hi"] : List Msg) ≠ [] ∧
    (∀ m ∈ ([Msg.mk "user" "hi"] : List Msg), 0 < String.length m.content) ∧
    TokenBasedCompressor.compress String.length 0 [Msg.mk "user" "hi"] = [] :=
  ⟨by decide, by decide,
   C5_amended_budget_zero_empty String.length [Msg.mk "user" "hi"]
     (by decide) (by decide)⟩

/-! ## Claims about the deque buffer's discard behaviour and the Redis
script -/

/-- Claim C1 (evaluation at the failing input): on the `ShortTermMemory`
of `short_term.py`, seven `add_message` calls with `max_turns = 3` leave
the buffer holding messages 2–7; the first message is gone from the whole
state and was returned to nobody — `add_message` silently discards
evicted entries, and no `check_overflow` method exists to recover them for
the mid-term managers that call it. -/
theorem C1_deque_add_silently_discards_oldest :
    ((ShortTermMemory.init 3).addAll
        [Msg.mk "user" "m1", Msg.mk "assistant" "m2", Msg.mk "user" "m3",
         Msg.mk "assistant" "m4", Msg.mk "user" "m5", Msg.mk "assistant" "m6",
         Msg.mk "user" "m7"]).messages =
      [Msg.mk "assistant" "m2", Msg.mk "user" "m3", Msg.mk "assistant" "m4",
       Msg.mk "user" "m5", Msg.mk "assistant" "m6", Msg.mk "user" "m7"] ∧
    Msg.mk "user" "m1" ∉
      ((ShortTermMemory.init 3).addAll
        [Msg.mk "user" "m1", Msg.mk "assistant" "m2", Msg.mk "user" "m3",
         Msg.mk "assistant" "m4", Msg.mk "user" "m5", Msg.mk "assistant" "m6",
         Msg.mk "user" "m7"]).messages := by
  exact ⟨by decide, by decide⟩

theorem collisionLoop_stuck_on_member (z : List (String × Rat)) (message : String)
    (h : zsetHasMember z message = true) :
    ∀ (fuel : Nat) (timestamp : Rat),
      collisionLoop z message fuel timestamp = none := by
  intro fuel
  induction fuel with
  | zero => intro _; rfl
  | succ n ih =>
      intro ts
      unfold collisionLoop
      rw [if_pos h]
      exact ih _

/-- Claim C4 (evaluation at the failing input): when the serialized
message is already a member of the sorted set, the `ADD_MESSAGE_SCRIPT`
collision loop's condition — `ZSCORE` of the unchanged member — never
becomes false, so no amount of fuel makes the script terminate: the
invocation neither inserts, trims, nor refreshes the TTL. -/
theorem C4_add_message_script_diverges_on_duplicate
    (z : List (String × Rat)) (message : String) (timestamp : Rat)
    (max_count ttl fuel : Nat) (h : zsetHasMember z message = true) :
    addMessageScript fuel z message timestamp max_count ttl = none := by
  unfold addMessageScript
  rw [collisionLoop_stuck_on_member z message h fuel timestamp]

/-- Witness for C4: a concrete duplicate member, fuel 1000. -/
theorem C4_add_message_script_diverges_on_duplicate_witness :
    zsetHasMember [("dup", (1 : Rat))] "dup" = true ∧
    addMessageScript 1000 [("dup", (1 : Rat))] "dup" 1 50 604800 = none :=
  ⟨by decide,
   C4_add_message_script_diverges_on_duplicate [("dup", (1 : Rat))] "dup" 1
     50 604800 1000 (by decide)⟩

/-! ## Frame property of `clear_session` -/

/-- Claim C10: `MidTermMemory.clear_session` empties only the in-memory
short-term buffer; the persistent store — every Message, Summary and
Profile row of every conversation — is left unchanged, and
`ShortTermMemory.clear` likewise only empties the buffer's message
sequence. -/
theorem C10_clear_session_frame (st : MidTermMemory)
    (user_id session_id : String) :
    (st.clear_session user_id session_id).storage = st.storage ∧
    (st.clear_session user_id session_id).short_term.messages = [] ∧
    ∀ b : ShortTermMemory, b.clear.messages = [] ∧ b.clear.max_turns = b.max_turns :=
  ⟨rfl, rfl, fun _ => ⟨rfl, rfl⟩⟩

/-! ## Lemmas about the persistent-store and cache operations -/

theorem PGStorage.get_or_create_fst (st : PGStorage) (k : ConvKey) :
    (st.get_or_create_conversation k).1 = k := by
  unfold PGStorage.get_or_create_conversation
  cases st.find k <;> rfl

theorem PGStorage.find_updateConv (st : PGStorage) (k : ConvKey)
    (f : ConvData → ConvData) :
    (st.updateConv k f).find k = (st.find k).map f := by
  unfold PGStorage.updateConv PGStorage.find
  induction st with
  | nil => rfl
  | cons p rest ih =>
      by_cases h : p.1 = k
      · simp [List.find?_cons, h]
      · simp only [List.map_cons, if_neg h]
        rw [List.find?_cons, List.find?_cons]
        simp only [h, decide_False]
        exact ih

theorem PGStorage.get_or_create_of_found (st : PGStorage) (k : ConvKey)
    (c : ConvData) (h : st.find k = some c) :
    st.get_or_create_conversation k = (k, st) := by
  unfold PGStorage.get_or_create_conversation
  rw [h]

theorem PGStorage.find_get_or_create_snd (st : PGStorage) (k : ConvKey) :
    ∃ c, (st.get_or_create_conversation k).2.find k = some c := by
  unfold PGStorage.get_or_create_conversation
  cases hf : st.find k with
  | some c => exact ⟨c, hf⟩
  | none =>
      refine ⟨ConvData.empty, ?_⟩
      unfold PGStorage.find at hf ⊢
      rw [Option.map_eq_none'] at hf
      simp [List.find?_append, hf, List.find?_cons]

theorem assocReplaceFind (l : List (ConvKey × List Msg)) (k : ConvKey)
    (ms : List Msg) (h : l.any (fun p => p.1 = k) = true) :
    (l.map fun p => if p.1 = k then (k, ms) else p).find?
      (fun p => decide (p.1 = k)) = some (k, ms) := by
  induction l with
  | nil => simp at h
  | cons p rest ih =>
      by_cases hp : p.1 = k
      · simp [List.find?_cons, hp]
      · simp only [List.any_cons, hp, decide_False, Bool.false_or] at h
        simp only [List.map_cons, if_neg hp]
        rw [List.find?_cons]
        simp only [hp, decide_False]
        exact ih h

theorem RedisCacheState.get_cached_cache_messages (c : RedisCacheState)
    (k : ConvKey) (ms : List Msg) (ttl : Nat) :
    (c.cache_messages k ms ttl).get_cached_messages k = some ms := by
  unfold RedisCacheState.cache_messages RedisCacheState.get_cached_messages
  by_cases h : c.messageCache.any fun p => p.1 = k
  · rw [if_pos h]
    simp only [assocReplaceFind c.messageCache k ms h]
    rfl
  · rw [if_neg h]
    have h' : c.messageCache.any (fun p => decide (p.1 = k)) = false :=
      Bool.eq_false_iff.mpr h
    have hnone : c.messageCache.find? (fun p => decide (p.1 = k)) = none := by
      rw [List.find?_eq_none]
      intro x hx
      rw [List.any_eq_false] at h'
      simpa using h' x hx
    simp [List.find?_append, hnone, List.find?_cons]

theorem RedisCacheState.get_cached_evict (c : RedisCacheState) (k : ConvKey) :
    (c.evict k).get_cached_messages k = none := by
  unfold RedisCacheState.evict RedisCacheState.get_cached_messages
  rw [Option.map_eq_none']
  rw [List.find?_eq_none]
  intro x hx
  simp only [List.mem_filter] at hx
  simpa using hx.2

/-! ## Claim C3: compaction error isolation -/

/-- Claim C3 counterexample: in the synchronous engine a storage-write
failure during compaction (here: the summary label already exists, so the
unique constraint rejects the insert) propagates out of `add_message` to
the foreground caller — `_compress_recent_messages` has no try/except.
Concrete input: 49 persisted messages, a zero-capacity buffer, an existing
`"msg_1_to_50"` summary; the 50th message triggers compaction and the call
fails. -/
theorem C3_counterexample_sync_compaction_error_propagates :
    MidTermMemory.add_message
      { storage := [(("u", "s"),
          { messages := List.replicate 49 (Msg.mk "user" "x"),
            summaries := [⟨"msg_1_to_50", "old"⟩], profile := [] })],
        short_term := { max_turns := 0, messages := [] } }
      "u" "s" "user" "hi" none = .error () := by
  rfl

/-- Claim C3, amended: a storage-write failure during compaction is caught
and does not propagate in the asynchronous engine
(`MidTermMemoryAsync._compress_in_background` wraps its body in
try/except, so `add_message` returns normally with the flushed but
uncompacted store), while in the synchronous engine (`MidTermMemory`,
whose `_compress_recent_messages` has no handler) the error propagates to
the foreground caller of `add_message`. -/
theorem C3_amended_async_catches_sync_propagates
    (stS : MidTermMemory) (stA : MidTermMemoryAsync)
    (u s role content : String) (tok tokA : Option Nat)
    (hOS : ((stS.short_term.add_message role content).check_overflow).1 ≠ [])
    (hPosS : 0 < ((stS.flushed u s role content).query_messages (u, s) none).length)
    (hModS : ((stS.flushed u s role content).query_messages (u, s) none).length % 50 = 0)
    (hDupS : (((stS.flushed u s role content).find (u, s)).getD ConvData.empty).summaries.any
        (fun r => r.time_range =
          timeRangeLabel
            ((stS.flushed u s role content).query_messages (u, s) none).length) = true)
    (hsm : stA.session_maker = true)
    (hOA : ((stA.short_term.add_message role content).check_overflow).1 ≠ [])
    (hPosA : 0 < ((stA.flushed u s role content).query_messages (u, s) none).length)
    (hModA : ((stA.flushed u s role content).query_messages (u, s) none).length % 50 = 0)
    (hDupA : (((stA.flushed u s role content).find (u, s)).getD ConvData.empty).summaries.any
        (fun r => r.time_range =
          timeRangeLabel
            ((stA.flushed u s role content).query_messages (u, s) none).length) = true) :
    MidTermMemory.add_message stS u s role content tok = .error () ∧
    MidTermMemoryAsync.add_message stA u s role content tokA =
      { storage := stA.flushed u s role content,
        short_term := ((stA.short_term.add_message role content).check_overflow).2,
        session_maker := stA.session_maker } := by
  simp only [MidTermMemory.flushed, PGStorage.get_or_create_fst] at hPosS hModS hDupS
  simp only [MidTermMemoryAsync.flushed, PGStorage.get_or_create_fst] at hPosA hModA hDupA
  constructor
  · simp only [MidTermMemory.add_message, PGStorage.get_or_create_fst]
    rw [if_neg hOS, if_pos ⟨hPosS, hModS⟩]
    simp only [MidTermMemory.compress_recent_messages, PGStorage.save_summary]
    rw [if_pos hDupS]
  · simp only [MidTermMemoryAsync.add_message, PGStorage.get_or_create_fst]
    rw [if_neg hOA, if_pos ⟨hPosA, hModA⟩]
    simp only [MidTermMemoryAsync.compress_in_background, hsm, Bool.not_true,
      Bool.false_eq_true, if_false, PGStorage.save_summary]
    rw [if_pos hDupA]
    simp [MidTermMemoryAsync.flushed, PGStorage.get_or_create_fst]

/-- Witness for the amended C3 at a concrete input: both engines hold 49
persisted messages and an existing `"msg_1_to_50"` summary; the sync call
errors, the async call returns normally with the flushed store. -/
theorem C3_amended_async_catches_sync_propagates_witness :
    MidTermMemory.add_message
      { storage := [(("u", "s"),
          { messages := List.replicate 49 (Msg.mk "user" "x"),
            summaries := [⟨"msg_1_to_50", "old"⟩], profile := [] })],
        short_term := { max_turns := 0, messages := [] } }
      "u" "s" "user" "hi" none = .error () ∧
    MidTermMemoryAsync.add_message
      { storage := [(("u", "s"),
          { messages := List.replicate 49 (Msg.mk "user" "x"),
            summaries := [⟨"msg_1_to_50", "old"⟩], profile := [] })],
        short_term := { max_turns := 0, messages := [] },
        session_maker := true }
      "u" "s" "user" "hi" none =
      { storage :=
          MidTermMemoryAsync.flushed
            { storage := [(("u", "s"),
                { messages := List.replicate 49 (Msg.mk "user" "x"),
                  summaries := [⟨"msg_1_to_50", "old"⟩], profile := [] })],
              short_term := { max_turns := 0, messages := [] },
              session_maker := true } "u" "s" "user" "hi",
        short_term :=
          ((({ max_turns := 0, messages := [] } :
              ShortTermMemorySpec).add_message "user" "hi").check_overflow).2,
        session_maker := true } := by
  have h := C3_amended_async_catches_sync_propagates
    { storage := [(("u", "s"),
        { messages := List.replicate 49 (Msg.mk "user" "x"),
          summaries := [⟨"msg_1_to_50", "old"⟩], profile := [] })],
      short_term := { max_turns := 0, messages := [] } }
    { storage := [(("u", "s"),
        { messages := List.replicate 49 (Msg.mk "user" "x"),
          summaries := [⟨"msg_1_to_50", "old"⟩], profile := [] })],
      short_term := { max_turns := 0, messages := [] },
      session_maker := true }
    "u" "s" "user" "hi" none none
    (by decide) (by decide) (by decide) (by decide)
    rfl (by decide) (by decide) (by decide) (by decide)
  exact h

/-! ## Claim C6: compaction trigger, block choice and label uniqueness -/

/-- Claim C6 counterexample: when an overflow flush brings the count to
100 (a positive multiple of 50), the synchronous engine passes
`all_messages[-50:]` of the *descending* query result to compaction — the
oldest 50 messages, not the most recent 50.  Concretely, with 50 user
messages followed by 50 assistant messages, the saved summary counts 50
user / 0 assistant messages, while the summary of the most recent 50
messages (the `takeLast 50` suffix in append order) would count 0 user /
50 assistant. -/
theorem C6_counterexample_compaction_uses_oldest_block :
    MidTermMemory.add_message
      ⟨[(("u", "s"),
        ⟨List.replicate 50 (Msg.mk "user" "x") ++ List.replicate 49 (Msg.mk "assistant" "y"),
         [], []⟩)], ⟨0, []⟩⟩
      "u" "s" "assistant" "z" none =
      .ok ⟨[(("u", "s"),
            ⟨List.replicate 50 (Msg.mk "user" "x") ++
               List.replicate 49 (Msg.mk "assistant" "y") ++ [Msg.mk "assistant" "z"],
             [⟨"msg_51_to_100", "对话包含50条消息，用户发送了50条，助手回复了0条。"⟩],
             []⟩)],
           ⟨0, []⟩⟩ ∧
    MidTermMemory.generate_summary
        (takeLast 50
          (List.replicate 50 (Msg.mk "user" "x") ++
            List.replicate 49 (Msg.mk "assistant" "y") ++ [Msg.mk "assistant" "z"])) =
      "对话包含50条消息，用户发送了0条，助手回复了50条。" ∧
    ("对话包含50条消息，用户发送了50条，助手回复了0条。" : String) ≠
      "对话包含50条消息，用户发送了0条，助手回复了50条。" := by
  refine ⟨?_, ?_, ?_⟩
  · rfl
  · rfl
  · decide

/-- Claim C6, amended: when an overflow flush brings the persisted count
to a positive multiple of 50 and the derived label is fresh, compaction
runs over `all_messages[-50:]` of the descending query result — the
*oldest* 50 messages (at count exactly 50 these coincide with the most
recent 50) — and appends exactly one Summary labelled
`"msg_{count-49}_to_{count}"`; re-running the compaction step over the
resulting store fails on the `uq_conversation_timerange` constraint and
creates no second Summary with that label. -/
theorem C6_amended_compaction_block_and_label (st : MidTermMemory)
    (u s role content : String) (tok : Option Nat)
    (hO : ((st.short_term.add_message role content).check_overflow).1 ≠ [])
    (hPos : 0 < ((st.flushed u s role content).query_messages (u, s) none).length)
    (hMod : ((st.flushed u s role content).query_messages (u, s) none).length % 50 = 0)
    (hFresh : (((st.flushed u s role content).find (u, s)).getD ConvData.empty).summaries.any
        (fun r => r.time_range =
          timeRangeLabel
            ((st.flushed u s role content).query_messages (u, s) none).length) = false) :
    MidTermMemory.add_message st u s role content tok =
      .ok { storage := (st.flushed u s role content).updateConv (u, s) (fun c =>
              { c with summaries := c.summaries ++
                [⟨timeRangeLabel
                    ((st.flushed u s role content).query_messages (u, s) none).length,
                  MidTermMemory.generate_summary
                    (takeLastPy 50
                      ((st.flushed u s role content).query_messages (u, s) none))⟩] }),
            short_term := ((st.short_term.add_message role content).check_overflow).2 } ∧
    MidTermMemory.compress_recent_messages
      ((st.flushed u s role content).updateConv (u, s) (fun c =>
          { c with summaries := c.summaries ++
            [⟨timeRangeLabel
                ((st.flushed u s role content).query_messages (u, s) none).length,
              MidTermMemory.generate_summary
                (takeLastPy 50
                  ((st.flushed u s role content).query_messages (u, s) none))⟩] }))
      (u, s)
      (takeLastPy 50 ((st.flushed u s role content).query_messages (u, s) none))
      ((st.flushed u s role content).query_messages (u, s) none).length = .error () := by
  simp only [MidTermMemory.flushed, PGStorage.get_or_create_fst] at hPos hMod hFresh ⊢
  constructor
  · simp only [MidTermMemory.add_message, PGStorage.get_or_create_fst]
    rw [if_neg hO, if_pos ⟨hPos, hMod⟩]
    simp only [MidTermMemory.compress_recent_messages, PGStorage.save_summary]
    rw [if_neg (by simp [hFresh])]
    simp [MidTermMemory.extract_user_profile]
  · simp only [MidTermMemory.compress_recent_messages, PGStorage.save_summary]
    rw [if_pos ?cond]
    case cond =>
      rw [PGStorage.find_updateConv]
      cases hf : PGStorage.find
        ((st.storage.get_or_create_conversation (u, s)).2.add_messages (u, s)
          (st.short_term.add_message role content).check_overflow.1) (u, s) with
      | none =>
          exfalso
          simp only [PGStorage.query_messages, hf, Option.getD] at hPos
          simp [ConvData.empty] at hPos
      | some c => simp

/-- Witness for the amended C6 at a concrete input: 49 persisted messages
plus one flushed message reach count 50; exactly one `"msg_1_to_50"`
summary is appended and re-running the compaction step errors. -/
theorem C6_amended_compaction_block_and_label_witness :
    ((((⟨0, []⟩ : ShortTermMemorySpec).add_message "user" "hi").check_overflow).1 ≠ []) ∧
    MidTermMemory.add_message
      ⟨[(("u", "s"), ⟨List.replicate 49 (Msg.mk "user" "x"), [], []⟩)], ⟨0, []⟩⟩
      "u" "s" "user" "hi" none =
      .ok ⟨[(("u", "s"),
            ⟨List.replicate 49 (Msg.mk "user" "x") ++ [Msg.mk "user" "hi"],
             [⟨"msg_1_to_50", "对话包含50条消息，用户发送了50条，助手回复了0条。"⟩],
             []⟩)],
           ⟨0, []⟩⟩ ∧
    MidTermMemory.compress_recent_messages
      [(("u", "s"),
        ⟨List.replicate 49 (Msg.mk "user" "x") ++ [Msg.mk "user" "hi"],
         [⟨"msg_1_to_50", "对话包含50条消息，用户发送了50条，助手回复了0条。"⟩],
         []⟩)]
      ("u", "s")
      (Msg.mk "user" "hi" :: List.replicate 49 (Msg.mk "user" "x"))
      50 = .error () := by
  have h := C6_amended_compaction_block_and_label
    ⟨[(("u", "s"), ⟨List.replicate 49 (Msg.mk "user" "x"), [], []⟩)], ⟨0, []⟩⟩
    "u" "s" "user" "hi" none (by decide) (by decide) (by decide) (by decide)
  exact ⟨by decide, h.1, h.2⟩

/-! ## Claim C2: read-after-write consistency of the Redis cache -/

/-- Claim C2: immediately after `MidTermMemoryWithRedis.add_message`
persists an overflow batch, a subsequent (unlimited) `query_messages` read
returns exactly the post-write store snapshot — on a cache hit, because
`add_message` refreshed the cache entry with the full re-read message list
before returning, and equally on a cache miss (the entry having expired or
been evicted), because the miss path reads PostgreSQL directly.  In both
cases the returned list contains every message of the just-persisted
overflow batch: a stale read after the write is impossible. -/
theorem C2_read_after_write_consistency (st : MidTermMemoryWithRedis)
    (u s role content : String) (tok : Option Nat)
    (hO : ((st.short_term.add_message role content).check_overflow).1 ≠ []) :
    ((st.add_message u s role content tok).query_messages u s none).1 =
      (st.add_message u s role content tok).pg_storage.query_messages (u, s) none ∧
    (∀ m ∈ ((st.short_term.add_message role content).check_overflow).1,
      m ∈ ((st.add_message u s role content tok).query_messages u s none).1) ∧
    (({ st.add_message u s role content tok with
        redis := (st.add_message u s role content tok).redis.evict (u, s) }
          : MidTermMemoryWithRedis).query_messages u s none).1 =
      (st.add_message u s role content tok).pg_storage.query_messages (u, s) none := by
  obtain ⟨c0, hc0⟩ := PGStorage.find_get_or_create_snd st.pg_storage (u, s)
  have hfind : PGStorage.find
      ((st.pg_storage.get_or_create_conversation (u, s)).2.add_messages (u, s)
        ((st.short_term.add_message role content).check_overflow).1) (u, s) =
      some { c0 with
        messages := c0.messages ++
          ((st.short_term.add_message role content).check_overflow).1 } := by
    unfold PGStorage.add_messages
    rw [PGStorage.find_updateConv, hc0]
    rfl
  simp only [MidTermMemoryWithRedis.add_message, PGStorage.get_or_create_fst]
  rw [if_neg hO]
  refine ⟨?_, ?_, ?_⟩
  · simp only [MidTermMemoryWithRedis.query_messages,
      RedisCacheState.get_cached_cache_messages]
  · intro m hm
    simp only [MidTermMemoryWithRedis.query_messages,
      RedisCacheState.get_cached_cache_messages]
    unfold PGStorage.query_messages
    rw [hfind]
    simp [hm]
  · simp only [MidTermMemoryWithRedis.query_messages,
      RedisCacheState.get_cached_evict]
    rw [PGStorage.get_or_create_of_found _ _ _ hfind]

/-- Witness for C2 at a concrete input: empty store and cache, a
zero-capacity buffer, one added message that overflows immediately. -/
theorem C2_read_after_write_consistency_witness :
    ((((⟨0, []⟩ : ShortTermMemorySpec).add_message "user" "hi").check_overflow).1 ≠ []) ∧
    ((redisWitnessState.add_message "u" "s" "user" "hi" none).query_messages
        "u" "s" none).1 =
      (redisWitnessState.add_message "u" "s" "user" "hi"
        none).pg_storage.query_messages ("u", "s") none ∧
    (∀ m ∈ (((⟨0, []⟩ : ShortTermMemorySpec).add_message "user" "hi").check_overflow).1,
      m ∈ ((redisWitnessState.add_message "u" "s" "user" "hi" none).query_messages
        "u" "s" none).1) ∧
    (({ redisWitnessState.add_message "u" "s" "user" "hi" none with
        redis := ((redisWitnessState.add_message "u" "s" "user" "hi"
          none).redis.evict ("u", "s")) }
          : MidTermMemoryWithRedis).query_messages "u" "s" none).1 =
      (redisWitnessState.add_message "u" "s" "user" "hi"
        none).pg_storage.query_messages ("u", "s") none :=
  ⟨by decide,
   C2_read_after_write_consistency redisWitnessState "u" "s" "user" "hi" none (by decide)⟩
